import Mathlib

/-!
Shallow embedding of `src/backend/server.py` (Comeback Scout), a service that
simulates live football matches, scores "comeback probability" for trailing
superteams, and persists alerts for high-probability comeback scenarios.

Python floats are modelled as rationals (ℚ), Python ints as ℤ, the MongoDB
alert collection as a `List ComebackAlert` in insertion order. Randomness in
the match simulator is made explicit: every `random.*` draw becomes a field of
a `MatchDraws` record, and the generator is a pure function of those draws.
-/

namespace ComebackScout

/-- Embeds the pydantic model `TeamData` (server.py lines 30-39). -/
structure TeamData where
  name : String
  logo : String
  score : ℤ
  xg : ℚ
  possession : ℤ
  shots : ℤ
  shots_on_target : ℤ
  corners : ℤ
  dangerous_attacks : ℤ
  deriving Repr, DecidableEq

/-- Embeds the pydantic model `Match` (server.py lines 41-52). The `id` and
`timestamp` default factories (uuid4 / now) are explicit fields here. -/
structure Match where
  id : String
  home_team : TeamData
  away_team : TeamData
  minute : ℤ
  status : String
  comeback_probability : ℚ
  is_comeback_scenario : Bool
  losing_team : Option String
  timestamp : ℕ
  deriving Repr, DecidableEq

/-- Embeds the pydantic model `ComebackAlert` (server.py lines 54-66). -/
structure ComebackAlert where
  id : String
  match_id : String
  team_name : String
  opponent : String
  score : String
  probability : ℚ
  minute : ℤ
  reason : String
  timestamp : ℕ
  read : Bool
  deriving Repr, DecidableEq

/-- One entry of the `SUPERTEAMS` reference list (server.py lines 69-76). -/
structure SuperteamProfile where
  name : String
  logo : String
  comeback_rate : ℚ
  deriving Repr, DecidableEq

/-- One entry of the `OPPONENTS` reference list (server.py lines 78-84). -/
structure OpponentProfile where
  name : String
  logo : String
  deriving Repr, DecidableEq

/-- The `SUPERTEAMS` constant (server.py lines 69-76). -/
def SUPERTEAMS : List SuperteamProfile :=
  [ ⟨"Real Madrid", "https://media.api-sports.io/football/teams/541.png", 75/100⟩,
    ⟨"Manchester City", "https://media.api-sports.io/football/teams/50.png", 78/100⟩,
    ⟨"Bayern Munich", "https://media.api-sports.io/football/teams/157.png", 72/100⟩,
    ⟨"PSG", "https://media.api-sports.io/football/teams/85.png", 68/100⟩,
    ⟨"Barcelona", "https://media.api-sports.io/football/teams/529.png", 71/100⟩,
    ⟨"Liverpool", "https://media.api-sports.io/football/teams/40.png", 74/100⟩ ]

/-- The `OPPONENTS` constant (server.py lines 78-84). -/
def OPPONENTS : List OpponentProfile :=
  [ ⟨"Atletico Madrid", "https://media.api-sports.io/football/teams/530.png"⟩,
    ⟨"Sevilla", "https://media.api-sports.io/football/teams/536.png"⟩,
    ⟨"Napoli", "https://media.api-sports.io/football/teams/489.png"⟩,
    ⟨"Arsenal", "https://media.api-sports.io/football/teams/42.png"⟩,
    ⟨"Inter Milan", "https://media.api-sports.io/football/teams/505.png"⟩ ]

/-- Python `int(q)` for the rationals this code feeds it (truncation toward
zero), used for `int(comeback_rate*100)` on line 94. -/
def pyInt (q : ℚ) : ℤ := if 0 ≤ q then ⌊q⌋ else -⌊-q⌋

/-- Models the Python format spec `:.1f` (one decimal place) used in the xG
rationale fragment on line 100. -/
def fmt1 (q : ℚ) : String :=
  let n : ℤ := round (q * 10)
  let sign := if n < 0 then "-" else ""
  let m := n.natAbs
  sign ++ toString (m / 10) ++ "." ++ toString (m % 10)

/-- Points added on line 93 when `is_superteam` holds: `comeback_rate * 30`. -/
def superteamTerm (is_superteam : Bool) (comeback_rate : ℚ) : ℚ :=
  if is_superteam then comeback_rate * 30 else 0

/-- Points added on lines 97-99 for an expected-goals advantage:
`min(xg_diff * 15, 25)` when `team_data.xg > opponent_data.xg`. -/
def xgTerm (team_data opponent_data : TeamData) : ℚ :=
  if team_data.xg > opponent_data.xg then
    min ((team_data.xg - opponent_data.xg) * 15) 25
  else 0

/-- Points added on lines 103-104 for possession above 55:
`(possession - 55) * 0.5`. -/
def possessionTerm (team_data : TeamData) : ℚ :=
  if team_data.possession > 55 then ((team_data.possession : ℚ) - 55) * (5/10)
  else 0

/-- Points added on lines 108-110 for a shot-count advantage:
`min(shot_diff * 2, 15)`. -/
def shotsTerm (team_data opponent_data : TeamData) : ℚ :=
  if team_data.shots > opponent_data.shots then
    min (((team_data.shots : ℚ) - (opponent_data.shots : ℚ)) * 2) 15
  else 0

/-- Points added on lines 114-115 for a shots-on-target advantage:
`min(diff * 3, 10)` (no rationale fragment). -/
def shotsOnTargetTerm (team_data opponent_data : TeamData) : ℚ :=
  if team_data.shots_on_target > opponent_data.shots_on_target then
    min (((team_data.shots_on_target : ℚ) - (opponent_data.shots_on_target : ℚ)) * 3) 10
  else 0

/-- Points added on lines 118-119 for a dangerous-attacks advantage:
`min(diff * 0.3, 10)`. -/
def dangerousAttacksTerm (team_data opponent_data : TeamData) : ℚ :=
  if team_data.dangerous_attacks > opponent_data.dangerous_attacks then
    min (((team_data.dangerous_attacks : ℚ) - (opponent_data.dangerous_attacks : ℚ)) * (3/10)) 10
  else 0

/-- The rationale fragments appended on lines 94, 100, 105, 111 and 120, in
program order; the shots-on-target branch appends none. -/
def reasonFragments (team_data opponent_data : TeamData)
    (is_superteam : Bool) (comeback_rate : ℚ) : List String :=
  (if is_superteam then
    ["Time com histórico de viradas (" ++ toString (pyInt (comeback_rate * 100)) ++ "%)"]
   else []) ++
  (if team_data.xg > opponent_data.xg then
    ["xG superior (" ++ fmt1 team_data.xg ++ " vs " ++ fmt1 opponent_data.xg ++ ")"]
   else []) ++
  (if team_data.possession > 55 then
    ["Domínio de posse (" ++ toString team_data.possession ++ "%)"]
   else []) ++
  (if team_data.shots > opponent_data.shots then
    ["Mais finalizações (" ++ toString team_data.shots ++ " vs "
      ++ toString opponent_data.shots ++ ")"]
   else []) ++
  (if team_data.dangerous_attacks > opponent_data.dangerous_attacks then
    ["Alta pressão ofensiva"]
   else [])

/-- Embeds `calculate_comeback_probability` (server.py lines 86-125): the
running total of the six conditional additions, clamped by `min(·, 95)` on
line 122, paired with the rationale `", ".join(reasons[:3])` of line 123. -/
def calculate_comeback_probability (team_data opponent_data : TeamData)
    (is_superteam : Bool) (comeback_rate : ℚ) : ℚ × String :=
  let probability :=
    superteamTerm is_superteam comeback_rate
    + xgTerm team_data opponent_data
    + possessionTerm team_data
    + shotsTerm team_data opponent_data
    + shotsOnTargetTerm team_data opponent_data
    + dangerousAttacksTerm team_data opponent_data
  (min probability 95,
   String.intercalate ", "
     ((reasonFragments team_data opponent_data is_superteam comeback_rate).take 3))

/-- The explicit record of every random draw one loop iteration of
`generate_mock_matches` (server.py lines 131-217) makes, plus the uuid/now
default factories of the `Match` model. `random.choice(OPPONENTS)` is modelled
as indexing by `opponent_draw % OPPONENTS.length`, so every list element and
nothing else can be drawn. Only the draws the taken branch consumes are read. -/
structure MatchDraws where
  opponent_draw : ℕ
  minute : ℤ
  is_losing : Bool
  home_score : ℤ
  away_score_draw : ℤ
  st_xg : ℚ
  st_possession : ℤ
  st_shots : ℤ
  st_shots_on_target : ℤ
  st_corners : ℤ
  st_dangerous_attacks : ℤ
  op_xg : ℚ
  op_shots : ℤ
  op_shots_on_target : ℤ
  op_corners : ℤ
  op_dangerous_attacks : ℤ
  match_id : String
  now : ℕ
  deriving Repr, DecidableEq

/-- One loop iteration of `generate_mock_matches` (server.py lines 131-217)
for a given superteam, as a pure function of the random draws `d`. -/
def generate_match (superteam : SuperteamProfile) (d : MatchDraws) : Match :=
  let opponent := OPPONENTS.getD (d.opponent_draw % OPPONENTS.length) ⟨"", ""⟩
  if d.is_losing then
    -- lines 139-140: superteam trails by exactly one goal
    let home_score := d.home_score
    let away_score := home_score + 1
    -- lines 146-157: statistics biased toward the superteam
    let superteam_stats : TeamData :=
      { name := superteam.name, logo := superteam.logo, score := home_score
        xg := d.st_xg, possession := d.st_possession, shots := d.st_shots
        shots_on_target := d.st_shots_on_target, corners := d.st_corners
        dangerous_attacks := d.st_dangerous_attacks }
    -- lines 158-168: opponent statistics; possession is the complement to 100
    let opponent_stats : TeamData :=
      { name := opponent.name, logo := opponent.logo, score := away_score
        xg := d.op_xg, possession := 100 - superteam_stats.possession
        shots := d.op_shots, shots_on_target := d.op_shots_on_target
        corners := d.op_corners, dangerous_attacks := d.op_dangerous_attacks }
    -- lines 170-182
    let pr := calculate_comeback_probability superteam_stats opponent_stats true
      superteam.comeback_rate
    { id := d.match_id, home_team := superteam_stats, away_team := opponent_stats
      minute := d.minute, status := "live", comeback_probability := pr.1
      is_comeback_scenario := decide (pr.1 > 50)
      losing_team := some superteam.name, timestamp := d.now }
  else
    -- lines 142-143: level or ahead
    let home_score := d.home_score
    let away_score := d.away_score_draw
    -- lines 184-205
    let superteam_stats : TeamData :=
      { name := superteam.name, logo := superteam.logo, score := home_score
        xg := d.st_xg, possession := d.st_possession, shots := d.st_shots
        shots_on_target := d.st_shots_on_target, corners := d.st_corners
        dangerous_attacks := d.st_dangerous_attacks }
    let opponent_stats : TeamData :=
      { name := opponent.name, logo := opponent.logo, score := away_score
        xg := d.op_xg, possession := 100 - superteam_stats.possession
        shots := d.op_shots, shots_on_target := d.op_shots_on_target
        corners := d.op_corners, dangerous_attacks := d.op_dangerous_attacks }
    -- lines 207-215
    { id := d.match_id, home_team := superteam_stats, away_team := opponent_stats
      minute := d.minute, status := "live", comeback_probability := 0
      is_comeback_scenario := false, losing_team := none, timestamp := d.now }

/-- Embeds `generate_mock_matches` (server.py lines 127-219): one match per
superteam in `SUPERTEAMS[:4]`, in list order, each from its own draws. -/
def generate_mock_matches (draws : List MatchDraws) : List Match :=
  ((SUPERTEAMS.take 4).zip draws).map fun p => generate_match p.1 p.2

/-- Outcome of `mark_alert_read`: HTTP 200 `{success:true}` or the
`HTTPException(404, "Alert not found")` raised on line 260. -/
inductive MarkReadResult where
  | success
  | notFound
  deriving Repr, DecidableEq

/-- MongoDB `update_one({"id": alert_id}, {"$set": {"read": True}})` (server.py
lines 254-257): updates the first document matching the filter and reports
`modified_count`, which counts documents actually CHANGED — a `$set` writing a
field's existing value modifies nothing, so it contributes 0. -/
def update_one_set_read : List ComebackAlert → String → List ComebackAlert × ℕ
  | [], _ => ([], 0)
  | a :: rest, alert_id =>
    if a.id = alert_id then
      ({ a with read := true } :: rest, if a.read then 0 else 1)
    else
      let r := update_one_set_read rest alert_id
      (a :: r.1, r.2)

/-- Embeds `mark_alert_read` (server.py lines 251-262): raises 404 exactly
when `result.modified_count == 0`. -/
def mark_alert_read (store : List ComebackAlert) (alert_id : String) :
    List ComebackAlert × MarkReadResult :=
  let r := update_one_set_read store alert_id
  if r.2 = 0 then (r.1, .notFound) else (r.1, .success)

/-- MongoDB `find_one({"match_id": match.id, "team_name": match.losing_team})`
(server.py lines 273-276), as a Boolean existence check. `match.losing_team`
is `Optional[str]`; a query value of `None` matches no stored alert, every
stored alert having a string `team_name`. -/
def existing_alert (store : List ComebackAlert) (mid : String)
    (team : Option String) : Bool :=
  store.any fun a => a.match_id = mid ∧ some a.team_name = team

/-- Result of `check_and_create_alerts`: normally HTTP 200 with
`{alerts_created:N}`, but a qualifying match whose `losing_team` is `None`
makes the `ComebackAlert(...)` constructor on lines 290-298 raise a pydantic
ValidationError (`team_name` must be a string), which propagates uncaught;
alerts inserted before the failure stay in the store. -/
inductive CheckResult where
  | ok (store : List ComebackAlert) (alerts_created : ℕ)
  | validationError (store : List ComebackAlert)
  deriving Repr, DecidableEq

/-- The alert built on server.py lines 290-298 for match `m` whose
`losing_team` is `some team`, with fresh uuid `fresh_id` and timestamp `now`.
The reason is recomputed on lines 283-288 with `is_superteam=True` and the
fixed rate `0.7`. -/
def mkAlert (m : Match) (team : String) (fresh_id : String) (now : ℕ) :
    ComebackAlert :=
  let losing_team_data := if m.home_team.name = team then m.home_team else m.away_team
  let opponent_data := if m.home_team.name = team then m.away_team else m.home_team
  { id := fresh_id
    match_id := m.id
    team_name := team
    opponent := opponent_data.name
    score := toString m.home_team.score ++ "-" ++ toString m.away_team.score
    probability := m.comeback_probability
    minute := m.minute
    reason := (calculate_comeback_probability losing_team_data opponent_data true (7/10)).2
    timestamp := now
    read := false }

/-- The `for match in matches` loop of `check_and_create_alerts` (server.py
lines 270-304). `ids k` supplies the k-th fresh uuid, `k` doubles as the
timestamp counter, `created` accumulates `alerts_created`. `insert_one`
appends to the store. -/
def checkLoop : List Match → List ComebackAlert → (ℕ → String) → ℕ → ℕ →
    CheckResult
  | [], store, _, _, created => .ok store created
  | m :: rest, store, ids, k, created =>
    if m.is_comeback_scenario = true ∧ m.comeback_probability > 60 then
      if existing_alert store m.id m.losing_team then
        checkLoop rest store ids k created
      else
        match m.losing_team with
        | none => .validationError store
        | some team =>
            checkLoop rest (store ++ [mkAlert m team (ids k) k]) ids (k + 1)
              (created + 1)
    else
      checkLoop rest store ids k created

/-- Embeds `check_and_create_alerts` (server.py lines 264-306) applied to an
already-generated batch of matches and the current alert store. -/
def check_and_create_alerts (ms : List Match) (store : List ComebackAlert)
    (ids : ℕ → String) : CheckResult :=
  checkLoop ms store ids 0 0

/-- The alert store held inside a `CheckResult`, successful or not. -/
def CheckResult.alertStore : CheckResult → List ComebackAlert
  | .ok s _ => s
  | .validationError s => s

/-- At most one alert exists per (match identifier, team name) pair. -/
def atMostOnePerPair (store : List ComebackAlert) : Prop :=
  store.Pairwise fun a b => ¬ (a.match_id = b.match_id ∧ a.team_name = b.team_name)

section TermBounds

lemma superteamTerm_nonneg (s : Bool) (r : ℚ) (hr : 0 ≤ r) :
    0 ≤ superteamTerm s r := by
  unfold superteamTerm
  split
  · exact mul_nonneg hr (by norm_num)
  · exact le_refl 0

lemma xgTerm_nonneg (t o : TeamData) : 0 ≤ xgTerm t o := by
  unfold xgTerm
  split
  · next h => exact le_min (by nlinarith) (by norm_num)
  · exact le_refl 0

lemma xgTerm_le (t o : TeamData) : xgTerm t o ≤ 25 := by
  unfold xgTerm
  split
  · exact min_le_right _ _
  · norm_num

lemma possessionTerm_nonneg (t : TeamData) : 0 ≤ possessionTerm t := by
  unfold possessionTerm
  split
  · next h =>
      have h55 : (55 : ℚ) < (t.possession : ℚ) := by exact_mod_cast h
      nlinarith
  · exact le_refl 0

lemma shotsTerm_nonneg (t o : TeamData) : 0 ≤ shotsTerm t o := by
  unfold shotsTerm
  split
  · next h =>
      have h' : (o.shots : ℚ) < (t.shots : ℚ) := by exact_mod_cast h
      exact le_min (by nlinarith) (by norm_num)
  · exact le_refl 0

lemma shotsOnTargetTerm_nonneg (t o : TeamData) : 0 ≤ shotsOnTargetTerm t o := by
  unfold shotsOnTargetTerm
  split
  · next h =>
      have h' : (o.shots_on_target : ℚ) < (t.shots_on_target : ℚ) := by exact_mod_cast h
      exact le_min (by nlinarith) (by norm_num)
  · exact le_refl 0

lemma dangerousAttacksTerm_nonneg (t o : TeamData) : 0 ≤ dangerousAttacksTerm t o := by
  unfold dangerousAttacksTerm
  split
  · next h =>
      have h' : (o.dangerous_attacks : ℚ) < (t.dangerous_attacks : ℚ) := by exact_mod_cast h
      exact le_min (by nlinarith) (by norm_num)
  · exact le_refl 0

end TermBounds

/-- C1: for every pair of TeamStats inputs, every superteam flag, and every
comeback rate in [0,1], the probability returned by
`calculate_comeback_probability` lies in the closed interval [0, 95]. -/
theorem comeback_probability_in_range (t o : TeamData) (s : Bool) (r : ℚ)
    (h0 : 0 ≤ r) (_h1 : r ≤ 1) :
    0 ≤ (calculate_comeback_probability t o s r).1 ∧
      (calculate_comeback_probability t o s r).1 ≤ 95 := by
  have ha := superteamTerm_nonneg s r h0
  have hb := xgTerm_nonneg t o
  have hc := possessionTerm_nonneg t
  have hd := shotsTerm_nonneg t o
  have he := shotsOnTargetTerm_nonneg t o
  have hf := dangerousAttacksTerm_nonneg t o
  unfold calculate_comeback_probability
  exact ⟨le_min (by linarith) (by norm_num), min_le_right _ _⟩

/-- The worked scenario's trailing-team statistics (name, logo and score are
not read by the scoring function). -/
def scenarioTeam : TeamData := ⟨"Team", "", 0, 25/10, 65, 18, 8, 7, 60⟩

/-- The worked scenario's opponent statistics. -/
def scenarioOpponent : TeamData := ⟨"Opp", "", 1, 1, 35, 6, 3, 2, 25⟩

/-- Witness for C1 at the worked scenario's inputs. -/
theorem comeback_probability_in_range_witness :
    0 ≤ (75/100 : ℚ) ∧ (75/100 : ℚ) ≤ 1 ∧
      (0 ≤ (calculate_comeback_probability scenarioTeam scenarioOpponent true (75/100)).1 ∧
        (calculate_comeback_probability scenarioTeam scenarioOpponent true (75/100)).1 ≤ 95) :=
  ⟨by norm_num, by norm_num,
    comeback_probability_in_range scenarioTeam scenarioOpponent true (75/100)
      (by norm_num) (by norm_num)⟩

/-- C6: on the spec's worked scenario — xG 2.5 vs 1.0, possession 65 vs 35,
shots 18 vs 6, shots on target 8 vs 3, dangerous attacks 60 vs 25, superteam
flag true, comeback rate 0.75 — the probability is exactly 85. -/
theorem comeback_probability_worked_scenario :
    (calculate_comeback_probability scenarioTeam scenarioOpponent true (75/100)).1 = 85 := by
  norm_num [calculate_comeback_probability, superteamTerm, xgTerm, possessionTerm,
    shotsTerm, shotsOnTargetTerm, dangerousAttacksTerm, scenarioTeam, scenarioOpponent,
    min_def]

/-- C7: the expected-goals contribution is `min(xg_diff * 15, 25)` when the
trailing team's xG exceeds the opponent's and 0 otherwise, so it never
exceeds 25; the returned probability is the clamp of the sum of the six
contributions. -/
theorem xg_contribution_capped (t o : TeamData) (s : Bool) (r : ℚ) :
    (t.xg > o.xg → xgTerm t o = min ((t.xg - o.xg) * 15) 25) ∧
    (¬ t.xg > o.xg → xgTerm t o = 0) ∧
    xgTerm t o ≤ 25 ∧
    (calculate_comeback_probability t o s r).1 =
      min (superteamTerm s r + xgTerm t o + possessionTerm t + shotsTerm t o
        + shotsOnTargetTerm t o + dangerousAttacksTerm t o) 95 := by
  refine ⟨fun h => by simp [xgTerm, h], fun h => by simp [xgTerm, h],
    xgTerm_le t o, rfl⟩

/-- A trailing team whose xG exceeds the scenario opponent's by 10. -/
def bigXgTeam : TeamData := ⟨"Team", "", 0, 11, 65, 18, 8, 7, 60⟩

/-- Witness for C7 at a pair with a huge xG difference (diff 10: the term is
capped at 25, not 150). -/
theorem xg_contribution_capped_witness :
    ((bigXgTeam.xg > scenarioOpponent.xg →
        xgTerm bigXgTeam scenarioOpponent =
          min ((bigXgTeam.xg - scenarioOpponent.xg) * 15) 25) ∧
      (¬ bigXgTeam.xg > scenarioOpponent.xg → xgTerm bigXgTeam scenarioOpponent = 0) ∧
      xgTerm bigXgTeam scenarioOpponent ≤ 25 ∧
      (calculate_comeback_probability bigXgTeam scenarioOpponent true (75/100)).1 =
        min (superteamTerm true (75/100) + xgTerm bigXgTeam scenarioOpponent
          + possessionTerm bigXgTeam + shotsTerm bigXgTeam scenarioOpponent
          + shotsOnTargetTerm bigXgTeam scenarioOpponent
          + dangerousAttacksTerm bigXgTeam scenarioOpponent) 95) ∧
    xgTerm bigXgTeam scenarioOpponent = 25 :=
  ⟨xg_contribution_capped bigXgTeam scenarioOpponent true (75/100),
    by norm_num [xgTerm, bigXgTeam, scenarioOpponent, min_def]⟩

section Simulator

lemma generate_match_scenario_iff (st : SuperteamProfile) (d : MatchDraws) :
    ((generate_match st d).is_comeback_scenario = true ↔
      (generate_match st d).comeback_probability > 50) := by
  unfold generate_match
  split
  · simp
  · simp

lemma generate_match_possession_sum (st : SuperteamProfile) (d : MatchDraws) :
    (generate_match st d).home_team.possession
      + (generate_match st d).away_team.possession = 100 := by
  unfold generate_match
  split <;> simp

lemma generate_match_fields (st : SuperteamProfile) (d : MatchDraws) :
    (generate_match st d).status = "live" ∧
    (generate_match st d).home_team.name = st.name ∧
    (generate_match st d).away_team.name =
      (OPPONENTS.getD (d.opponent_draw % OPPONENTS.length) ⟨"", ""⟩).name ∧
    ∀ t, (generate_match st d).losing_team = some t → t = st.name := by
  unfold generate_match
  split
  · refine ⟨rfl, rfl, rfl, ?_⟩
    intro t ht
    simp at ht
    exact ht.symm
  · refine ⟨rfl, rfl, rfl, ?_⟩
    intro t ht
    simp at ht

end Simulator

/-- C5: every match the simulator produces has `is_comeback_scenario` true
iff its `comeback_probability` is strictly greater than 50. -/
theorem generated_scenario_flag_iff (draws : List MatchDraws) (m : Match)
    (hm : m ∈ generate_mock_matches draws) :
    m.is_comeback_scenario = true ↔ m.comeback_probability > 50 := by
  obtain ⟨p, _, rfl⟩ := List.mem_map.mp hm
  exact generate_match_scenario_iff p.1 p.2

/-- The Real Madrid profile, the first entry of `SUPERTEAMS`. -/
def stRM : SuperteamProfile :=
  ⟨"Real Madrid", "https://media.api-sports.io/football/teams/541.png", 75/100⟩

/-- A concrete record of random draws: opponent index 0, minute 60, the
superteam trailing 0-1, and the worked scenario's statistics. -/
def d0 : MatchDraws :=
  { opponent_draw := 0, minute := 60, is_losing := true, home_score := 0
    away_score_draw := 0, st_xg := 25/10, st_possession := 65, st_shots := 18
    st_shots_on_target := 8, st_corners := 7, st_dangerous_attacks := 60
    op_xg := 1, op_shots := 6, op_shots_on_target := 3, op_corners := 2
    op_dangerous_attacks := 25, match_id := "m1", now := 0 }

lemma generate_match_stRM_d0_mem :
    generate_match stRM d0 ∈ generate_mock_matches [d0] := by
  simp [generate_mock_matches, SUPERTEAMS, stRM]

/-- Witness for C5 at the concrete draws `d0`. -/
theorem generated_scenario_flag_iff_witness :
    generate_match stRM d0 ∈ generate_mock_matches [d0] ∧
    ((generate_match stRM d0).is_comeback_scenario = true ↔
      (generate_match stRM d0).comeback_probability > 50) :=
  ⟨generate_match_stRM_d0_mem,
    generated_scenario_flag_iff [d0] _ generate_match_stRM_d0_mem⟩

/-- C9: in every match the simulator produces, home and away possession sum
to exactly 100. -/
theorem generated_possession_sum (draws : List MatchDraws) (m : Match)
    (hm : m ∈ generate_mock_matches draws) :
    m.home_team.possession + m.away_team.possession = 100 := by
  obtain ⟨p, _, rfl⟩ := List.mem_map.mp hm
  exact generate_match_possession_sum p.1 p.2

/-- Witness for C9 at the concrete draws `d0`. -/
theorem generated_possession_sum_witness :
    generate_match stRM d0 ∈ generate_mock_matches [d0] ∧
    (generate_match stRM d0).home_team.possession
      + (generate_match stRM d0).away_team.possession = 100 :=
  ⟨generate_match_stRM_d0_mem,
    generated_possession_sum [d0] _ generate_match_stRM_d0_mem⟩

/-- C10: every match the simulator produces has a monitored superteam as the
home side, an away side drawn from the opponents list, status always "live"
(never halftime or finished), and any designated losing team is the home
side's name. -/
theorem generated_match_shape (draws : List MatchDraws) (m : Match)
    (hm : m ∈ generate_mock_matches draws) :
    m.status = "live" ∧
    m.home_team.name ∈ SUPERTEAMS.map SuperteamProfile.name ∧
    m.away_team.name ∈ OPPONENTS.map OpponentProfile.name ∧
    ∀ t, m.losing_team = some t → t = m.home_team.name := by
  obtain ⟨p, hp, rfl⟩ := List.mem_map.mp hm
  obtain ⟨hst, hop⟩ := List.of_mem_zip hp
  obtain ⟨h1, h2, h3, h4⟩ := generate_match_fields p.1 p.2
  refine ⟨h1, ?_, ?_, ?_⟩
  · rw [h2]
    exact List.mem_map_of_mem _ (List.mem_of_mem_take hst)
  · rw [h3]
    have hlt : p.2.opponent_draw % OPPONENTS.length < OPPONENTS.length :=
      Nat.mod_lt _ (by simp [OPPONENTS])
    rw [List.getD_eq_getElem _ _ hlt]
    exact List.mem_map_of_mem _ (List.getElem_mem hlt)
  · intro t ht
    rw [h2]
    exact h4 t ht

/-- Witness for C10 at the concrete draws `d0`. -/
theorem generated_match_shape_witness :
    generate_match stRM d0 ∈ generate_mock_matches [d0] ∧
    ((generate_match stRM d0).status = "live" ∧
      (generate_match stRM d0).home_team.name ∈ SUPERTEAMS.map SuperteamProfile.name ∧
      (generate_match stRM d0).away_team.name ∈ OPPONENTS.map OpponentProfile.name ∧
      ∀ t, (generate_match stRM d0).losing_team = some t →
        t = (generate_match stRM d0).home_team.name) :=
  ⟨generate_match_stRM_d0_mem,
    generated_match_shape [d0] _ generate_match_stRM_d0_mem⟩

/-- A persisted alert that has already been marked read. -/
def alreadyReadAlert : ComebackAlert :=
  { id := "a1", match_id := "m1", team_name := "Real Madrid", opponent := "Sevilla"
    score := "0-1", probability := 72, minute := 60
    reason := "Time com histórico de viradas (70%)", timestamp := 0, read := true }

/-- C2 (code bug): the store contains an alert with id "a1", yet
`mark_alert_read` on "a1" reports NotFound, because `$set read: true` on an
already-read alert modifies nothing and the code tests `modified_count == 0`;
the same call succeeds once the alert is unread. -/
theorem mark_alert_read_404_on_already_read :
    alreadyReadAlert ∈ [alreadyReadAlert] ∧
    alreadyReadAlert.id = "a1" ∧
    alreadyReadAlert.read = true ∧
    (mark_alert_read [alreadyReadAlert] "a1").2 = MarkReadResult.notFound ∧
    (mark_alert_read [{ alreadyReadAlert with read := false }] "a1").2 =
      MarkReadResult.success := by
  refine ⟨List.mem_singleton_self _, rfl, rfl, ?_, ?_⟩ <;> rfl

section AlertLoop

lemma existing_alert_append (store extra : List ComebackAlert) (mid : String)
    (team : Option String) (h : existing_alert store mid team = true) :
    existing_alert (store ++ extra) mid team = true := by
  simp only [existing_alert, List.any_append, Bool.or_eq_true]
  exact Or.inl h

lemma checkLoop_store_append (ms : List Match) :
    ∀ (store : List ComebackAlert) (ids : ℕ → String) (k c : ℕ),
      ∃ extra, (checkLoop ms store ids k c).alertStore = store ++ extra := by
  induction ms with
  | nil =>
      intro store ids k c
      exact ⟨[], (List.append_nil store).symm⟩
  | cons m0 rest ih =>
      intro store ids k c
      simp only [checkLoop]
      by_cases hq : m0.is_comeback_scenario = true ∧ m0.comeback_probability > 60
      · rw [if_pos hq]
        by_cases he : existing_alert store m0.id m0.losing_team = true
        · rw [if_pos he]
          exact ih store ids k c
        · rw [if_neg he]
          cases hl : m0.losing_team with
          | none => exact ⟨[], (List.append_nil store).symm⟩
          | some team =>
              obtain ⟨extra, hx⟩ :=
                ih (store ++ [mkAlert m0 team (ids k) k]) ids (k + 1) (c + 1)
              exact ⟨[mkAlert m0 team (ids k) k] ++ extra,
                by rw [hx, List.append_assoc]⟩
      · rw [if_neg hq]
        exact ih store ids k c

lemma checkLoop_ok_covers (ms : List Match) :
    ∀ (store store' : List ComebackAlert) (ids : ℕ → String) (k c n : ℕ),
      checkLoop ms store ids k c = .ok store' n →
      ∀ m ∈ ms, m.is_comeback_scenario = true ∧ m.comeback_probability > 60 →
        existing_alert store' m.id m.losing_team = true := by
  induction ms with
  | nil =>
      intro store store' ids k c n _ m hm
      exact absurd hm (List.not_mem_nil m)
  | cons m0 rest ih =>
      intro store store' ids k c n h m hm hq
      simp only [checkLoop] at h
      by_cases hq0 : m0.is_comeback_scenario = true ∧ m0.comeback_probability > 60
      · rw [if_pos hq0] at h
        by_cases he : existing_alert store m0.id m0.losing_team = true
        · rw [if_pos he] at h
          rcases List.mem_cons.mp hm with rfl | hm'
          · obtain ⟨extra, hx⟩ := checkLoop_store_append rest store ids k c
            rw [h] at hx
            have hs : store' = store ++ extra := hx
            rw [hs]
            exact existing_alert_append store extra _ _ he
          · exact ih store store' ids k c n h m hm' hq
        · rw [if_neg he] at h
          cases hl : m0.losing_team with
          | none =>
              rw [hl] at h
              simp at h
          | some team =>
              rw [hl] at h
              replace h : checkLoop rest (store ++ [mkAlert m0 team (ids k) k])
                  ids (k + 1) (c + 1) = .ok store' n := h
              rcases List.mem_cons.mp hm with rfl | hm'
              · obtain ⟨extra, hx⟩ := checkLoop_store_append rest
                  (store ++ [mkAlert m team (ids k) k]) ids (k + 1) (c + 1)
                rw [h] at hx
                have hs : store' = store ++ [mkAlert m team (ids k) k] ++ extra := hx
                rw [hs, hl]
                simp [existing_alert, List.any_append, mkAlert]
              · exact ih (store ++ [mkAlert m0 team (ids k) k]) store' ids
                  (k + 1) (c + 1) n h m hm' hq
      · rw [if_neg hq0] at h
        rcases List.mem_cons.mp hm with rfl | hm'
        · exact absurd hq hq0
        · exact ih store store' ids k c n h m hm' hq

lemma checkLoop_no_new (ms : List Match) :
    ∀ (store : List ComebackAlert) (ids : ℕ → String) (k c : ℕ),
      (∀ m ∈ ms, m.is_comeback_scenario = true ∧ m.comeback_probability > 60 →
        existing_alert store m.id m.losing_team = true) →
      checkLoop ms store ids k c = .ok store c := by
  induction ms with
  | nil =>
      intro store ids k c _
      rfl
  | cons m0 rest ih =>
      intro store ids k c h
      simp only [checkLoop]
      by_cases hq : m0.is_comeback_scenario = true ∧ m0.comeback_probability > 60
      · rw [if_pos hq, if_pos (h m0 (List.mem_cons_self m0 rest) hq)]
        exact ih store ids k c fun m hm => h m (List.mem_cons_of_mem m0 hm)
      · rw [if_neg hq]
        exact ih store ids k c fun m hm => h m (List.mem_cons_of_mem m0 hm)

lemma checkLoop_preserves_unique (ms : List Match) :
    ∀ (store : List ComebackAlert) (ids : ℕ → String) (k c : ℕ),
      atMostOnePerPair store →
      atMostOnePerPair (checkLoop ms store ids k c).alertStore := by
  induction ms with
  | nil =>
      intro store ids k c h
      exact h
  | cons m0 rest ih =>
      intro store ids k c h
      simp only [checkLoop]
      by_cases hq : m0.is_comeback_scenario = true ∧ m0.comeback_probability > 60
      · rw [if_pos hq]
        by_cases he : existing_alert store m0.id m0.losing_team = true
        · rw [if_pos he]
          exact ih store ids k c h
        · rw [if_neg he]
          cases hl : m0.losing_team with
          | none => exact h
          | some team =>
              apply ih
              unfold atMostOnePerPair at h ⊢
              rw [List.pairwise_append]
              refine ⟨h, List.pairwise_singleton _ _, ?_⟩
              intro a ha b hb
              simp only [List.mem_singleton] at hb
              subst hb
              rw [hl] at he
              simp only [existing_alert, List.any_eq_true, decide_eq_true_eq,
                Option.some.injEq, not_exists] at he
              intro hcon
              simp only [mkAlert] at hcon
              exact he a ⟨ha, hcon.1, hcon.2⟩
      · rw [if_neg hq]
        exact ih store ids k c h

lemma checkLoop_new_alert_shape (ms : List Match) :
    ∀ (store : List ComebackAlert) (ids : ℕ → String) (k c : ℕ),
      ∀ a ∈ (checkLoop ms store ids k c).alertStore,
        a ∈ store ∨ ∃ m ∈ ms,
          (m.is_comeback_scenario = true ∧ m.comeback_probability > 60) ∧
          ∃ team, m.losing_team = some team ∧
            ∃ fid ts, a = mkAlert m team fid ts := by
  induction ms with
  | nil =>
      intro store ids k c a ha
      exact Or.inl ha
  | cons m0 rest ih =>
      intro store ids k c a ha
      simp only [checkLoop] at ha
      by_cases hq : m0.is_comeback_scenario = true ∧ m0.comeback_probability > 60
      · rw [if_pos hq] at ha
        by_cases he : existing_alert store m0.id m0.losing_team = true
        · rw [if_pos he] at ha
          rcases ih store ids k c a ha with h | ⟨m, hm, rest'⟩
          · exact Or.inl h
          · exact Or.inr ⟨m, List.mem_cons_of_mem m0 hm, rest'⟩
        · rw [if_neg he] at ha
          cases hl : m0.losing_team with
          | none =>
              rw [hl] at ha
              exact Or.inl ha
          | some team =>
              rw [hl] at ha
              rcases ih (store ++ [mkAlert m0 team (ids k) k]) ids (k + 1) (c + 1)
                  a ha with h | ⟨m, hm, rest'⟩
              · rcases List.mem_append.mp h with h' | h'
                · exact Or.inl h'
                · simp only [List.mem_singleton] at h'
                  exact Or.inr ⟨m0, List.mem_cons_self m0 rest, hq, team, hl,
                    ids k, k, h'⟩
              · exact Or.inr ⟨m, List.mem_cons_of_mem m0 hm, rest'⟩
      · rw [if_neg hq] at ha
        rcases ih store ids k c a ha with h | ⟨m, hm, rest'⟩
        · exact Or.inl h
        · exact Or.inr ⟨m, List.mem_cons_of_mem m0 hm, rest'⟩

end AlertLoop

/-- C3: if the alert-evaluation operation, run over a batch of snapshots,
succeeded and produced the store `store'`, running it again over the same
snapshots creates no alert and leaves the store unchanged; and the run
preserves at-most-one-alert-per-(match id, team name). -/
theorem check_and_create_alerts_idempotent (ms : List Match)
    (store store' : List ComebackAlert) (ids idsTwo : ℕ → String) (n : ℕ)
    (h : check_and_create_alerts ms store ids = .ok store' n) :
    check_and_create_alerts ms store' idsTwo = .ok store' 0 ∧
    (atMostOnePerPair store → atMostOnePerPair store') := by
  unfold check_and_create_alerts at h ⊢
  constructor
  · exact checkLoop_no_new ms store' idsTwo 0 0
      (checkLoop_ok_covers ms store store' ids 0 0 n h)
  · intro hu
    have hres := checkLoop_preserves_unique ms store ids 0 0 hu
    rw [h] at hres
    exact hres

/-- C4: invoking the alert-evaluation operation on a snapshot creates an
alert only when the snapshot's scenario flag is true and its probability
strictly exceeds 60; when that fails — in particular at probability exactly
60 — the store is returned unchanged with zero alerts created. -/
theorem alert_threshold_strict (m : Match) (store : List ComebackAlert)
    (ids : ℕ → String) :
    (¬ (m.is_comeback_scenario = true ∧ m.comeback_probability > 60) →
      check_and_create_alerts [m] store ids = .ok store 0) ∧
    ∀ a ∈ (check_and_create_alerts [m] store ids).alertStore, a ∉ store →
      m.is_comeback_scenario = true ∧ m.comeback_probability > 60 := by
  constructor
  · intro h
    unfold check_and_create_alerts
    simp only [checkLoop]
    rw [if_neg h]
  · intro a ha hnew
    rcases checkLoop_new_alert_shape [m] store ids 0 0 a ha with
      h | ⟨m', hm', hqual, _⟩
    · exact absurd h hnew
    · simp only [List.mem_singleton] at hm'
      subst hm'
      exact hqual

/-- A snapshot at the alert boundary: flagged as a comeback scenario with a
probability of exactly 60. -/
def boundaryMatch : Match :=
  { id := "m60", home_team := scenarioTeam, away_team := scenarioOpponent
    minute := 70, status := "live", comeback_probability := 60
    is_comeback_scenario := true, losing_team := some "Team", timestamp := 0 }

/-- Witness for C4 at the boundary snapshot with probability exactly 60. -/
theorem alert_threshold_strict_witness :
    ¬ (boundaryMatch.is_comeback_scenario = true ∧
        boundaryMatch.comeback_probability > 60) ∧
    check_and_create_alerts [boundaryMatch] [] (fun _ => "a1") = .ok [] 0 := by
  have h : ¬ (boundaryMatch.is_comeback_scenario = true ∧
      boundaryMatch.comeback_probability > 60) := by
    norm_num [boundaryMatch]
  exact ⟨h, (alert_threshold_strict boundaryMatch [] (fun _ => "a1")).1 h⟩

/-- C8: every alert the alert-evaluation operation adds to the store has its
reason recomputed by the Evaluator on the trailing team's stats and the
opponent's stats with the superteam flag true and the historical rate fixed
at 0.7, whatever the trailing team's actual profile rate is. -/
theorem alert_reason_uses_fixed_rate (ms : List Match)
    (store : List ComebackAlert) (ids : ℕ → String) (a : ComebackAlert)
    (ha : a ∈ (check_and_create_alerts ms store ids).alertStore)
    (hnew : a ∉ store) :
    ∃ m ∈ ms, ∃ team, m.losing_team = some team ∧ a.team_name = team ∧
      a.reason = (calculate_comeback_probability
        (if m.home_team.name = team then m.home_team else m.away_team)
        (if m.home_team.name = team then m.away_team else m.home_team)
        true (7/10)).2 := by
  rcases checkLoop_new_alert_shape ms store ids 0 0 a ha with
    h | ⟨m, hm, _, team, hl, fid, ts, rfl⟩
  · exact absurd h hnew
  · exact ⟨m, hm, team, hl, by simp [mkAlert], by simp [mkAlert]⟩

/-- A snapshot that qualifies for an alert: scenario flag true, probability
85, trailing home side "Team". -/
def qualMatch : Match :=
  { id := "mq", home_team := scenarioTeam, away_team := scenarioOpponent
    minute := 70, status := "live", comeback_probability := 85
    is_comeback_scenario := true, losing_team := some "Team", timestamp := 0 }

/-- A uuid supply returning a fixed fresh identifier. -/
def widFun : ℕ → String := fun _ => "alert-1"

lemma qualRun_eval :
    check_and_create_alerts [qualMatch] [] widFun =
      .ok [mkAlert qualMatch "Team" "alert-1" 0] 1 := by
  unfold check_and_create_alerts
  simp only [checkLoop]
  rw [if_pos (by norm_num [qualMatch])]
  rw [if_neg (by simp [existing_alert])]
  simp [qualMatch, widFun, checkLoop]

/-- Witness for C3: a first run that creates one alert, after which a second
run over the same snapshot creates none. -/
theorem check_and_create_alerts_idempotent_witness :
    check_and_create_alerts [qualMatch] [] widFun =
      .ok [mkAlert qualMatch "Team" "alert-1" 0] 1 ∧
    (check_and_create_alerts [qualMatch] [mkAlert qualMatch "Team" "alert-1" 0]
        widFun = .ok [mkAlert qualMatch "Team" "alert-1" 0] 0 ∧
      (atMostOnePerPair [] →
        atMostOnePerPair [mkAlert qualMatch "Team" "alert-1" 0])) :=
  ⟨qualRun_eval,
    check_and_create_alerts_idempotent [qualMatch] []
      [mkAlert qualMatch "Team" "alert-1" 0] widFun widFun 1 qualRun_eval⟩

/-- Witness for C8 at the alert created by the concrete run. -/
theorem alert_reason_uses_fixed_rate_witness :
    mkAlert qualMatch "Team" "alert-1" 0 ∈
      (check_and_create_alerts [qualMatch] [] widFun).alertStore ∧
    mkAlert qualMatch "Team" "alert-1" 0 ∉ ([] : List ComebackAlert) ∧
    ∃ m ∈ [qualMatch], ∃ team, m.losing_team = some team ∧
      (mkAlert qualMatch "Team" "alert-1" 0).team_name = team ∧
      (mkAlert qualMatch "Team" "alert-1" 0).reason =
        (calculate_comeback_probability
          (if m.home_team.name = team then m.home_team else m.away_team)
          (if m.home_team.name = team then m.away_team else m.home_team)
          true (7/10)).2 := by
  have ha : mkAlert qualMatch "Team" "alert-1" 0 ∈
      (check_and_create_alerts [qualMatch] [] widFun).alertStore := by
    rw [qualRun_eval]
    exact List.mem_singleton_self _
  exact ⟨ha, List.not_mem_nil _,
    alert_reason_uses_fixed_rate [qualMatch] [] widFun _ ha (List.not_mem_nil _)⟩

end ComebackScout
